import Mathlib

/-!
Verification of the decoration component of the kana-dojo repository
(src/features/MainMenu/Decorations.tsx).

The development shallowly embeds the module-level font-loader cache, the
glyph fetch-and-shuffle pipeline, the per-cell style assignment and the
interactive explode/hide/fade-in state machine of the source file, and
proves the documented properties about them.
-/

namespace KanaDojo.Decorations

/-- A decoration font descriptor: the inner font object exposing a
stylesheet class name, mirroring the shape of the imported font module. -/
structure FontHandle where
  className : String
deriving DecidableEq, Repr

/-- A decoration font as declared in the source: a display name paired
with a font handle. -/
structure DecorationFont where
  name : String
  font : FontHandle
deriving DecidableEq, Repr

/-- The result a single call to loadDecorationFonts hands back to its
caller: either an immediately available list (the early-return empty list
or the populated cache), or a reference to the shared pending promise,
identified by the id it was created with. -/
inductive FontCallResult where
  | immediate (fonts : List DecorationFont)
  | promiseRef (id : Nat)
deriving DecidableEq, Repr

/-- The module-level state of the font loader: the fontsCache and
fontsLoadingPromise variables.  pendingId is the identity of the stored
promise (none when fontsLoadingPromise is null); rejected records whether
that stored promise has rejected (the source attaches no rejection
handler, so the variable itself is untouched by a rejection).  The field
importCount counts the underlying dynamic imports that were started, and
nextId supplies fresh promise identities. -/
structure FontLoaderState where
  fontsCache : Option (List DecorationFont)
  pendingId : Option Nat
  rejected : Bool
  importCount : Nat
  nextId : Nat
deriving DecidableEq, Repr

/-- The module state before any call: both variables null. -/
def initFontLoaderState : FontLoaderState :=
  { fontsCache := none, pendingId := none, rejected := false,
    importCount := 0, nextId := 0 }

/-- One call to loadDecorationFonts.  isProd models the NODE_ENV value
being production; forceLoad is the argument.  The body is synchronous up
to the point it returns: the environment check first, then the cache
check, then the pending-promise check, and otherwise the import is
started and its promise stored and returned. -/
def loadDecorationFonts (isProd forceLoad : Bool) (s : FontLoaderState) :
    FontLoaderState × FontCallResult :=
  if isProd = false ∧ forceLoad = false then
    (s, FontCallResult.immediate [])
  else
    match s.fontsCache with
    | some cached => (s, FontCallResult.immediate cached)
    | none =>
      match s.pendingId with
      | some i => (s, FontCallResult.promiseRef i)
      | none =>
        ({ s with pendingId := some s.nextId, rejected := false,
                  importCount := s.importCount + 1, nextId := s.nextId + 1 },
         FontCallResult.promiseRef s.nextId)

/-- The then-continuation of the import promise: on fulfilment it writes
the cache and clears the stored promise.  A promise resolves at most once
and never after rejecting, so the continuation runs only when a live,
unrejected promise is stored. -/
def resolveImport (fonts : List DecorationFont) (s : FontLoaderState) :
    FontLoaderState :=
  match s.pendingId with
  | some _ =>
      if s.rejected then s
      else { s with fontsCache := some fonts, pendingId := none }
  | none => s

/-- Rejection of the import: the source installs no rejection handler, so
the stored promise variable is left in place and the cache untouched;
only the promise itself becomes rejected. -/
def rejectImport (s : FontLoaderState) : FontLoaderState :=
  match s.pendingId with
  | some _ => { s with rejected := true }
  | none => s

/-- An event observable by the font-loader module state: a call arriving
(with the current environment and its force flag), or the settling of
the in-flight asset load. -/
inductive FontEvent where
  | call (isProd forceLoad : Bool)
  | resolve (fonts : List DecorationFont)
  | reject
deriving DecidableEq, Repr

/-- Effect of one event on the module state. -/
def fontStep (s : FontLoaderState) : FontEvent → FontLoaderState
  | FontEvent.call isProd forceLoad => (loadDecorationFonts isProd forceLoad s).1
  | FontEvent.resolve fonts => resolveImport fonts s
  | FontEvent.reject => rejectImport s

/-- Running a sequence of events against the module state. -/
def fontRun (s : FontLoaderState) : List FontEvent → FontLoaderState
  | [] => s
  | e :: es => fontRun (fontStep s e) es

/-- The invariant the font-loader module state maintains: at most one
asset load is ever started, one has been started exactly when one of
the two module variables is non-null, and the cache and a pending
promise never coexist. -/
def FontInv (s : FontLoaderState) : Prop :=
  s.importCount ≤ 1 ∧
  (s.importCount = 0 → s.fontsCache = none ∧ s.pendingId = none) ∧
  (s.fontsCache = none ∧ s.pendingId = none → s.importCount = 0) ∧
  (s.fontsCache = none ∨ s.pendingId = none)

/-- The comparator-based shuffle of the source:
arr.slice().sort(cmp) for the random comparator, modelled as sorting
with an arbitrary boolean comparator. -/
def shuffle {α : Type} (cmp : α → α → Bool) (arr : List α) : List α :=
  arr.mergeSort cmp

/-- A raw entry of a kanji category payload, exposing the character
field the source extracts. -/
structure RawKanjiEntry where
  kanjiChar : String
deriving DecidableEq, Repr

/-- The three fixed category keys. -/
def kanjiSources : List String := ["N5", "N4", "N3"]

/-- Fetch one category and extract the characters from its entries:
the response parsed as a list of entries, mapped to the kanjiChar
field of each entry. -/
def fetchKanjiChars (fetch : String → Except String (List RawKanjiEntry))
    (level : String) : Except String (List String) :=
  (fetch level).map (fun data => data.map (fun entry => entry.kanjiChar))

/-- Promise.all over the per-category fetches: results in source order,
failing as a whole as soon as any category fails. -/
def fetchAllKanji (fetch : String → Except String (List RawKanjiEntry)) :
    List String → Except String (List (List String))
  | [] => Except.ok []
  | level :: rest => do
      let chars ← fetchKanjiChars fetch level
      let others ← fetchAllKanji fetch rest
      Except.ok (chars :: others)

/-- The aggregate load over the three fixed sources. -/
def loadKanjiLists (fetch : String → Except String (List RawKanjiEntry)) :
    Except String (List (List String)) :=
  fetchAllKanji fetch kanjiSources

/-- What the loadKanji effect leaves in the kanjiList state, starting
from the current list cur: on rejection of any fetch the state setter is
never reached and cur stays; on success the shuffled flattening of the
per-category results is applied, but only when the effect is still
mounted. -/
def applyLoadKanji (isMounted : Bool) (cmp : String → String → Bool)
    (fetch : String → Except String (List RawKanjiEntry))
    (cur : List String) : List String :=
  match loadKanjiLists fetch with
  | Except.error _ => cur
  | Except.ok results =>
      if isMounted then shuffle cmp results.flatten else cur

/-- A theme: a main color and an optional secondary color. -/
structure Theme where
  mainColor : String
  secondaryColor : Option String
deriving DecidableEq, Repr

/-- A theme group: the themes it contains. -/
structure ThemeGroup where
  themes : List Theme
deriving DecidableEq, Repr

/-- JS Set insertion: append the color unless already present, keeping
first-occurrence order. -/
def insertColor (acc : List String) (c : String) : List String :=
  if c ∈ acc then acc else acc ++ [c]

/-- Adding one theme to the color set: the main color is added and,
when present, the secondary color. -/
def addThemeColors (acc : List String) (t : Theme) : List String :=
  match t.secondaryColor with
  | some sc => insertColor (insertColor acc t.mainColor) sc
  | none => insertColor acc t.mainColor

/-- getAllMainColors: iterates the themes of the theme group at index 2
only, collecting main and present secondary colors into a Set, returned
as a list. -/
def getAllMainColors (themeSets : List ThemeGroup) : List String :=
  match themeSets.get? 2 with
  | some group => group.themes.foldl addThemeColors []
  | none => []

/-- The fixed animation-class pool of the source. -/
def animations : List String := ["motion-safe:animate-pulse"]

/-- The per-cell animation state: idle is the resting state, the other
three are the transient phases of the click cycle. -/
inductive AnimState where
  | idle
  | exploding
  | hidden
  | fadingIn
deriving DecidableEq, Repr

/-- The kind of a scheduled timer callback of handleClick: each one sets
the next animation state (and the first two schedule the following
timer). -/
inductive TimerKind where
  | toHidden
  | toFadingIn
  | toIdle
deriving DecidableEq, Repr

/-- The random style assignment held by a cell. -/
structure Styles where
  color : String
  fontClass : String
  animationClass : String
deriving DecidableEq, Repr

/-- The state of one KanjiCharacter cell: the interactive prop, the
effect-closure lifecycle flag isMounted (set false by the effect cleanup
on unmount), the mounted render gate, the style assignment, the animation
state, the pending timers scheduled by handleClick (absolute fire time
and callback kind), and a count of audio cues played. -/
structure Cell where
  interactive : Bool
  isMounted : Bool
  mounted : Bool
  styles : Styles
  animState : AnimState
  pending : List (Nat × TimerKind)
  audioCount : Nat
deriving DecidableEq, Repr

/-- The effect cleanup on unmount: isMounted becomes false.  Nothing
else is cancelled; in particular pending timers stay scheduled. -/
def unmountCell (c : Cell) : Cell :=
  { c with isMounted := false }

/-- The continuation of the style-setup effect once the font load
resolves: it consults the isMounted flag and returns without touching the
cell when it is cleared; otherwise it writes the randomly chosen styles
and sets mounted.  colorIdx, fontIdx and animIdx are the random draws,
reduced into range; an empty font list yields no font class. -/
def applyStylesInit (colors : List String) (fonts : List DecorationFont)
    (colorIdx fontIdx animIdx : Nat) (c : Cell) : Cell :=
  if c.isMounted = false then c
  else
    { c with
      styles :=
        { color := colors.getD (colorIdx % colors.length) "",
          fontClass :=
            if fonts.length > 0 then
              (fonts.getD (fontIdx % fonts.length)
                { name := "", font := { className := "" } }).font.className
            else "",
          animationClass := animations.getD (animIdx % animations.length) "" },
      mounted := true }

/-- handleClick: ignored unless the cell is interactive and idle;
otherwise it plays the click cue once, enters exploding, and schedules
the first timer 300ms out. -/
def handleClick (now : Nat) (c : Cell) : Cell :=
  if c.interactive = false ∨ c.animState ≠ AnimState.idle then c
  else
    { c with
      audioCount := c.audioCount + 1,
      animState := AnimState.exploding,
      pending := c.pending ++ [(now + 300, TimerKind.toHidden)] }

/-- A timer callback firing at time now: toHidden sets hidden and
schedules the 1500ms timer, toFadingIn sets fading-in and schedules the
500ms timer, toIdle returns to idle.  None of them consults the
isMounted flag and none plays audio. -/
def fireTimer (now : Nat) (k : TimerKind) (c : Cell) : Cell :=
  match k with
  | TimerKind.toHidden =>
      { c with animState := AnimState.hidden,
               pending := c.pending ++ [(now + 1500, TimerKind.toFadingIn)] }
  | TimerKind.toFadingIn =>
      { c with animState := AnimState.fadingIn,
               pending := c.pending ++ [(now + 500, TimerKind.toIdle)] }
  | TimerKind.toIdle =>
      { c with animState := AnimState.idle }

/-- Fire the next pending timer, returning its fire time and the cell
afterwards; none when no timer is pending. -/
def fireNext (c : Cell) : Option (Nat × Cell) :=
  match c.pending with
  | [] => none
  | (t, k) :: rest => some (t, fireTimer t k { c with pending := rest })

/-- Run scheduled timers (bounded by fuel), collecting the fire time and
the animation state reached by each callback. -/
def runTrace : Nat → Cell → List (Nat × AnimState)
  | 0, _ => []
  | fuel + 1, c =>
    match fireNext c with
    | none => []
    | some (t, c2) => (t, c2.animState) :: runTrace fuel c2

/-- Run scheduled timers (bounded by fuel), returning the final cell. -/
def fireAll : Nat → Cell → Cell
  | 0, c => c
  | fuel + 1, c =>
    match fireNext c with
    | none => c
    | some (_, c2) => fireAll fuel c2

/-- The inline style computed for a cell by getAnimationStyle. -/
inductive VisualStyle where
  | delayedPulse
  | explodeAnim
  | transparent
  | fadeInAnim
  | resting
deriving DecidableEq, Repr

/-- getAnimationStyle: non-interactive cells get their stable animation
delay; interactive cells get the style of their animation state, with
hidden rendered fully transparent (opacity 0) and idle the resting
default. -/
def getAnimationStyle (c : Cell) : VisualStyle :=
  if c.interactive = false then VisualStyle.delayedPulse
  else
    match c.animState with
    | AnimState.exploding => VisualStyle.explodeAnim
    | AnimState.hidden => VisualStyle.transparent
    | AnimState.fadingIn => VisualStyle.fadeInAnim
    | AnimState.idle => VisualStyle.resting

/-- An empty style assignment, used in concrete sample cells. -/
def sampleStyles : Styles :=
  { color := "", fontClass := "", animationClass := "" }

/-- A concrete interactive cell resting in idle with no pending timers. -/
def sampleIdleCell : Cell :=
  { interactive := true, isMounted := true, mounted := true,
    styles := sampleStyles, animState := AnimState.idle,
    pending := [], audioCount := 0 }

/-- A concrete interactive cell currently exploding. -/
def sampleExplodingCell : Cell :=
  { interactive := true, isMounted := true, mounted := true,
    styles := sampleStyles, animState := AnimState.exploding,
    pending := [], audioCount := 3 }

/-- A concrete mounted cell in the middle of an animation cycle, with
the toHidden timer still pending. -/
def sampleMidCycleCell : Cell :=
  { interactive := true, isMounted := true, mounted := true,
    styles := sampleStyles, animState := AnimState.exploding,
    pending := [(300, TimerKind.toHidden)], audioCount := 1 }

/-- A concrete decoration font. -/
def sampleFont : DecorationFont :=
  { name := "Noto", font := { className := "font-noto" } }

/-- A concrete module state with a live pending load. -/
def samplePendingState : FontLoaderState :=
  { fontsCache := none, pendingId := some 0, rejected := false,
    importCount := 1, nextId := 1 }

/-- A concrete module state whose one import has rejected. -/
def sampleRejectedState : FontLoaderState :=
  { fontsCache := none, pendingId := some 0, rejected := true,
    importCount := 1, nextId := 1 }

/-- A concrete module state whose one import has completed. -/
def sampleCachedState : FontLoaderState :=
  { fontsCache := some [sampleFont], pendingId := none, rejected := false,
    importCount := 1, nextId := 1 }

/-- A concrete theme group standing at the designated index 2. -/
def sampleGroupTwo : ThemeGroup :=
  { themes :=
      [{ mainColor := "g2-main", secondaryColor := some ("g2-sec") },
       { mainColor := "g2-main-b", secondaryColor := none }] }

/-- A concrete ordered collection of theme groups. -/
def sampleThemeSets : List ThemeGroup :=
  [{ themes := [{ mainColor := "g0-main", secondaryColor := none }] },
   { themes := [{ mainColor := "g1-main", secondaryColor := some ("g1-sec") }] },
   sampleGroupTwo,
   { themes := [{ mainColor := "g3-main", secondaryColor := none }] }]

/-- A concrete comparator, standing in for one draw of the random
comparator. -/
def sampleCmp : String → String → Bool := fun _ _ => true

/-- A concrete fetch in which every category succeeds, with 2, 1 and 0
entries respectively. -/
def sampleFetch : String → Except String (List RawKanjiEntry) :=
  fun level =>
    if level = "N5" then Except.ok [{ kanjiChar := "a" }, { kanjiChar := "b" }]
    else if level = "N4" then Except.ok [{ kanjiChar := "c" }]
    else Except.ok []

/-- A concrete fetch in which the second category fails. -/
def sampleFailFetch : String → Except String (List RawKanjiEntry) :=
  fun level =>
    if level = "N4" then Except.error ("network")
    else Except.ok [{ kanjiChar := "a" }]

/-! ## Helper lemmas -/

theorem fontInv_init : FontInv initFontLoaderState := by
  simp [FontInv, initFontLoaderState]

theorem fontInv_step (s : FontLoaderState) (e : FontEvent)
    (h : FontInv s) : FontInv (fontStep s e) := by
  obtain ⟨fc, pid, rej, ic, nid⟩ := s
  obtain ⟨h1, h2, h3, h4⟩ := h
  simp only [FontInv] at *
  cases e with
  | call isProd forceLoad =>
    cases fc <;> cases pid <;> cases isProd <;> cases forceLoad <;>
      simp_all [fontStep, loadDecorationFonts]
  | resolve fonts =>
    cases fc <;> cases pid <;> cases rej <;>
      simp_all [fontStep, resolveImport]
  | reject =>
    cases fc <;> cases pid <;>
      simp_all [fontStep, rejectImport]

theorem fontInv_run (s : FontLoaderState) (evs : List FontEvent)
    (h : FontInv s) : FontInv (fontRun s evs) := by
  induction evs generalizing s with
  | nil => exact h
  | cons e es ih => exact ih (fontStep s e) (fontInv_step s e h)

theorem cacheStable_step (s : FontLoaderState) (e : FontEvent)
    (l : List DecorationFont)
    (hc : s.fontsCache = some l) (hp : s.pendingId = none) :
    (fontStep s e).fontsCache = some l ∧ (fontStep s e).pendingId = none := by
  obtain ⟨fc, pid, rej, ic, nid⟩ := s
  simp only at hc hp
  subst hc hp
  cases e with
  | call isProd forceLoad =>
    cases isProd <;> cases forceLoad <;> simp [fontStep, loadDecorationFonts]
  | resolve fonts => simp [fontStep, resolveImport]
  | reject => simp [fontStep, rejectImport]

theorem cacheStable_run (s : FontLoaderState) (evs : List FontEvent)
    (l : List DecorationFont)
    (hc : s.fontsCache = some l) (hp : s.pendingId = none) :
    (fontRun s evs).fontsCache = some l := by
  induction evs generalizing s with
  | nil => exact hc
  | cons e es ih =>
    obtain ⟨hc2, hp2⟩ := cacheStable_step s e l hc hp
    exact ih (fontStep s e) hc2 hp2

theorem rejectedFrozen_step (s : FontLoaderState) (i : Nat) (e : FontEvent)
    (hcache : s.fontsCache = none) (hpend : s.pendingId = some i)
    (hrej : s.rejected = true) :
    fontStep s e = s := by
  obtain ⟨fc, pid, rej, ic, nid⟩ := s
  simp only at hcache hpend hrej
  subst hcache hpend hrej
  cases e with
  | call isProd forceLoad =>
    cases isProd <;> cases forceLoad <;> simp [fontStep, loadDecorationFonts]
  | resolve fonts => simp [fontStep, resolveImport]
  | reject => simp [fontStep, rejectImport]

theorem mem_insertColor (acc : List String) (x c : String) :
    c ∈ insertColor acc x ↔ c ∈ acc ∨ c = x := by
  unfold insertColor
  split
  · rename_i hx
    constructor
    · exact fun h => Or.inl h
    · rintro (h | rfl)
      · exact h
      · exact hx
  · simp

theorem mem_addThemeColors (acc : List String) (t : Theme) (c : String) :
    c ∈ addThemeColors acc t ↔
      c ∈ acc ∨ c = t.mainColor ∨ t.secondaryColor = some c := by
  unfold addThemeColors
  cases h : t.secondaryColor with
  | none => simp [mem_insertColor, h]
  | some sc =>
    simp [mem_insertColor, h]
    constructor
    · rintro ((h1 | h1) | rfl)
      · exact Or.inl h1
      · exact Or.inr (Or.inl h1)
      · exact Or.inr (Or.inr rfl)
    · rintro (h1 | h1 | rfl)
      · exact Or.inl (Or.inl h1)
      · exact Or.inl (Or.inr h1)
      · exact Or.inr rfl

theorem mem_foldl_addThemeColors (ts : List Theme) (acc : List String)
    (c : String) :
    c ∈ ts.foldl addThemeColors acc ↔
      c ∈ acc ∨ ∃ t ∈ ts, c = t.mainColor ∨ t.secondaryColor = some c := by
  induction ts generalizing acc with
  | nil => simp
  | cons t rest ih =>
    rw [List.foldl_cons, ih, mem_addThemeColors]
    simp only [List.mem_cons]
    constructor
    · rintro ((h1 | h1) | ⟨u, hu, h1⟩)
      · exact Or.inl h1
      · exact Or.inr ⟨t, Or.inl rfl, h1⟩
      · exact Or.inr ⟨u, Or.inr hu, h1⟩
    · rintro (h1 | ⟨u, hu | hu, h1⟩)
      · exact Or.inl (Or.inl h1)
      · exact Or.inl (Or.inr (hu ▸ h1))
      · exact Or.inr ⟨u, hu, h1⟩

/-! ## Claim theorems -/

/-- Claim C1: a click received in state idle on an interactive cell
triggers exactly one audio cue and moves the state to exploding, after
which the scheduled timer callbacks visit hidden, fading-in and idle in
that fixed order with no skipped or repeated states and no further audio;
a click received in any other state, or on a non-interactive cell, leaves
the cell unchanged and plays no audio cue. -/
theorem clickCycle_visits_states_in_order (c c2 : Cell) (now now2 : Nat)
    (hi : c.interactive = true) (hs : c.animState = AnimState.idle)
    (hp : c.pending = [])
    (hblocked : c2.interactive = false ∨ c2.animState ≠ AnimState.idle) :
    (handleClick now c).audioCount = c.audioCount + 1 ∧
    (handleClick now c).animState = AnimState.exploding ∧
    (handleClick now c).animState ::
        (runTrace 4 (handleClick now c)).map Prod.snd
      = [AnimState.exploding, AnimState.hidden, AnimState.fadingIn,
         AnimState.idle] ∧
    (fireAll 4 (handleClick now c)).audioCount = c.audioCount + 1 ∧
    handleClick now2 c2 = c2 := by
  obtain ⟨ci, cim, cm, cs, ca, cp, cac⟩ := c
  simp only at hi hs hp
  subst hi hs hp
  refine ⟨by simp [handleClick], by simp [handleClick], ?_, ?_, ?_⟩
  · simp [handleClick, runTrace, fireNext, fireTimer]
  · simp [handleClick, fireAll, fireNext, fireTimer]
  · rcases hblocked with h | h
    · simp [handleClick, h]
    · simp [handleClick, h]

theorem clickCycle_visits_states_in_order_witness :
    (handleClick 0 sampleIdleCell).audioCount = sampleIdleCell.audioCount + 1 ∧
    (handleClick 0 sampleIdleCell).animState = AnimState.exploding ∧
    (handleClick 0 sampleIdleCell).animState ::
        (runTrace 4 (handleClick 0 sampleIdleCell)).map Prod.snd
      = [AnimState.exploding, AnimState.hidden, AnimState.fadingIn,
         AnimState.idle] ∧
    (fireAll 4 (handleClick 0 sampleIdleCell)).audioCount
      = sampleIdleCell.audioCount + 1 ∧
    handleClick 50 sampleExplodingCell = sampleExplodingCell :=
  clickCycle_visits_states_in_order sampleIdleCell sampleExplodingCell 0 50
    rfl rfl rfl (Or.inr (by decide))

/-- Claim C2: over any sequence of font-loader events at most one
underlying asset-bundle import is started; a caller arriving while a load
is in flight receives the one stored pending promise (so all such callers
share the same pending result); and once the cache has been populated it
keeps its value forever, so it is populated at most once. -/
theorem fontLoader_at_most_one_import (evs evs2 evs3 : List FontEvent)
    (s : FontLoaderState) (i : Nat) (isProd forceLoad : Bool)
    (l : List DecorationFont)
    (hcache : s.fontsCache = none) (hpend : s.pendingId = some i)
    (hok : isProd = true ∨ forceLoad = true)
    (hpop : (fontRun initFontLoaderState evs2).fontsCache = some l) :
    (fontRun initFontLoaderState evs).importCount ≤ 1 ∧
    loadDecorationFonts isProd forceLoad s = (s, FontCallResult.promiseRef i) ∧
    (fontRun (fontRun initFontLoaderState evs2) evs3).fontsCache = some l := by
  refine ⟨(fontInv_run initFontLoaderState evs fontInv_init).1, ?_, ?_⟩
  · have hne : ¬(isProd = false ∧ forceLoad = false) := by
      rcases hok with h | h <;> simp [h]
    simp [loadDecorationFonts, hne, hcache, hpend]
  · have hinv := fontInv_run initFontLoaderState evs2 fontInv_init
    have hpnone : (fontRun initFontLoaderState evs2).pendingId = none := by
      rcases hinv.2.2.2 with h | h
      · rw [hpop] at h
        exact absurd h (by simp)
      · exact h
    exact cacheStable_run _ evs3 l hpop hpnone

theorem fontLoader_at_most_one_import_witness :
    (fontRun initFontLoaderState [FontEvent.call true true]).importCount ≤ 1 ∧
    loadDecorationFonts true false samplePendingState
      = (samplePendingState, FontCallResult.promiseRef 0) ∧
    (fontRun (fontRun initFontLoaderState
        [FontEvent.call true true, FontEvent.resolve [sampleFont]])
        [FontEvent.call false true, FontEvent.reject]).fontsCache
      = some [sampleFont] :=
  fontLoader_at_most_one_import [FontEvent.call true true]
    [FontEvent.call true true, FontEvent.resolve [sampleFont]]
    [FontEvent.call false true, FontEvent.reject]
    samplePendingState 0 true false [sampleFont]
    rfl rfl (Or.inl rfl) (by decide)

/-- Claim C3 counterexample: after a forced load has completed in a
non-production environment the cache is populated, yet a subsequent call
with the force flag unset returns the empty list rather than the cached
font list, because the environment check precedes the cache check. -/
theorem cached_fonts_bypassed_in_dev_counterexample :
    (resolveImport [sampleFont]
        (loadDecorationFonts false true initFontLoaderState).1).fontsCache
      = some [sampleFont] ∧
    (loadDecorationFonts false false
        (resolveImport [sampleFont]
          (loadDecorationFonts false true initFontLoaderState).1)).2
      = FontCallResult.immediate [] ∧
    FontCallResult.immediate ([] : List DecorationFont)
      ≠ FontCallResult.immediate [sampleFont] := by
  decide

/-- Claim C3 (amended): after a load has completed, a call made in
production mode, or any call with the force flag set, returns the cached
font list immediately without re-fetching; a non-production call without
the force flag instead returns the empty list, bypassing the cache. -/
theorem cached_fonts_returned_when_allowed (s : FontLoaderState)
    (l : List DecorationFont) (isProd forceLoad : Bool)
    (hcache : s.fontsCache = some l)
    (hok : isProd = true ∨ forceLoad = true) :
    loadDecorationFonts isProd forceLoad s = (s, FontCallResult.immediate l) := by
  have hne : ¬(isProd = false ∧ forceLoad = false) := by
    rcases hok with h | h <;> simp [h]
  simp [loadDecorationFonts, hne, hcache]

theorem cached_fonts_returned_when_allowed_witness :
    loadDecorationFonts false true sampleCachedState
      = (sampleCachedState, FontCallResult.immediate [sampleFont]) :=
  cached_fonts_returned_when_allowed sampleCachedState [sampleFont] false true
    rfl (Or.inr rfl)

/-- Claim C4 counterexample: a cell unmounted mid-cycle still has its
pending timer callback apply a state change: the cell is torn down
(isMounted is false) in state exploding, and firing the scheduled
toHidden callback moves it to hidden, since the click-handler timer
callbacks consult no mounted flag. -/
theorem timer_callback_applies_after_unmount_counterexample :
    (unmountCell sampleMidCycleCell).isMounted = false ∧
    (unmountCell sampleMidCycleCell).animState = AnimState.exploding ∧
    (fireAll 1 (unmountCell sampleMidCycleCell)).animState
      = AnimState.hidden := by
  decide

/-- Claim C4 (amended): the mounted/interested flag is consulted only by
the asynchronous continuations: the style-initialisation result and the
glyph-list fetch result are no-ops on a torn-down cell, but the timer
callbacks scheduled by the click handler consult no flag and apply their
state transitions unconditionally. -/
theorem mount_flag_guards_only_async_results (c : Cell)
    (colors : List String) (fonts : List DecorationFont) (ci fi ai : Nat)
    (cmp : String → String → Bool)
    (fetch : String → Except String (List RawKanjiEntry))
    (cur : List String) (t : Nat)
    (hum : c.isMounted = false) :
    applyStylesInit colors fonts ci fi ai c = c ∧
    applyLoadKanji false cmp fetch cur = cur ∧
    (fireTimer t TimerKind.toHidden c).animState = AnimState.hidden ∧
    (fireTimer t TimerKind.toFadingIn c).animState = AnimState.fadingIn ∧
    (fireTimer t TimerKind.toIdle c).animState = AnimState.idle := by
  refine ⟨by simp [applyStylesInit, hum], ?_, by simp [fireTimer],
    by simp [fireTimer], by simp [fireTimer]⟩
  unfold applyLoadKanji
  cases loadKanjiLists fetch <;> simp

theorem mount_flag_guards_only_async_results_witness :
    applyStylesInit [] [sampleFont] 0 0 0 (unmountCell sampleMidCycleCell)
      = unmountCell sampleMidCycleCell ∧
    applyLoadKanji false sampleCmp sampleFetch [] = [] ∧
    (fireTimer 42 TimerKind.toHidden (unmountCell sampleMidCycleCell)).animState
      = AnimState.hidden ∧
    (fireTimer 42 TimerKind.toFadingIn (unmountCell sampleMidCycleCell)).animState
      = AnimState.fadingIn ∧
    (fireTimer 42 TimerKind.toIdle (unmountCell sampleMidCycleCell)).animState
      = AnimState.idle :=
  mount_flag_guards_only_async_results (unmountCell sampleMidCycleCell)
    [] [sampleFont] 0 0 0 sampleCmp sampleFetch [] 42 rfl

/-- Claim C5: an interactive cell clicked once from idle has its
transitions scheduled exactly 300ms (to hidden, rendered fully
transparent), a further 1500ms (to fading-in) and a further 500ms (back
to idle) after the click, after which the cell has no pending timers and
accepts clicks again. -/
theorem click_cycle_timing (c : Cell) (now now2 : Nat)
    (hi : c.interactive = true) (hs : c.animState = AnimState.idle)
    (hp : c.pending = []) :
    runTrace 4 (handleClick now c)
      = [(now + 300, AnimState.hidden),
         (now + 300 + 1500, AnimState.fadingIn),
         (now + 300 + 1500 + 500, AnimState.idle)] ∧
    getAnimationStyle (fireAll 1 (handleClick now c)) = VisualStyle.transparent ∧
    getAnimationStyle (fireAll 2 (handleClick now c)) = VisualStyle.fadeInAnim ∧
    (fireAll 4 (handleClick now c)).animState = AnimState.idle ∧
    (fireAll 4 (handleClick now c)).pending = [] ∧
    (handleClick now2 (fireAll 4 (handleClick now c))).animState
      = AnimState.exploding ∧
    (handleClick now2 (fireAll 4 (handleClick now c))).audioCount
      = (fireAll 4 (handleClick now c)).audioCount + 1 := by
  obtain ⟨ci, cim, cm, cs, ca, cp, cac⟩ := c
  simp only at hi hs hp
  subst hi hs hp
  refine ⟨?_, ?_, ?_, ?_, ?_, ?_, ?_⟩ <;>
    simp [handleClick, runTrace, fireAll, fireNext, fireTimer,
      getAnimationStyle]

theorem click_cycle_timing_witness :
    runTrace 4 (handleClick 0 sampleIdleCell)
      = [(0 + 300, AnimState.hidden),
         (0 + 300 + 1500, AnimState.fadingIn),
         (0 + 300 + 1500 + 500, AnimState.idle)] ∧
    getAnimationStyle (fireAll 1 (handleClick 0 sampleIdleCell))
      = VisualStyle.transparent ∧
    getAnimationStyle (fireAll 2 (handleClick 0 sampleIdleCell))
      = VisualStyle.fadeInAnim ∧
    (fireAll 4 (handleClick 0 sampleIdleCell)).animState = AnimState.idle ∧
    (fireAll 4 (handleClick 0 sampleIdleCell)).pending = [] ∧
    (handleClick 2400 (fireAll 4 (handleClick 0 sampleIdleCell))).animState
      = AnimState.exploding ∧
    (handleClick 2400 (fireAll 4 (handleClick 0 sampleIdleCell))).audioCount
      = (fireAll 4 (handleClick 0 sampleIdleCell)).audioCount + 1 :=
  click_cycle_timing sampleIdleCell 0 2400 rfl rfl rfl

/-- Claim C6: with the force flag unset outside production mode and no
load started, the loader skips loading and returns an empty list
immediately with the state untouched; with the force flag set loading
proceeds unconditionally (the import is started); and a cell styled from
an empty font list carries no custom font class. -/
theorem dev_mode_skips_font_load (s : FontLoaderState) (isProd : Bool)
    (c : Cell) (colors : List String) (ci fi ai : Nat)
    (hcache : s.fontsCache = none) (hpend : s.pendingId = none)
    (hm : c.isMounted = true) :
    loadDecorationFonts false false s = (s, FontCallResult.immediate []) ∧
    (loadDecorationFonts isProd true s).1.importCount = s.importCount + 1 ∧
    (applyStylesInit colors [] ci fi ai c).styles.fontClass = "" := by
  refine ⟨by simp [loadDecorationFonts], ?_, ?_⟩
  · simp [loadDecorationFonts, hcache, hpend]
  · simp [applyStylesInit, hm]

theorem dev_mode_skips_font_load_witness :
    loadDecorationFonts false false initFontLoaderState
      = (initFontLoaderState, FontCallResult.immediate []) ∧
    (loadDecorationFonts false true initFontLoaderState).1.importCount
      = initFontLoaderState.importCount + 1 ∧
    (applyStylesInit ["red"] [] 0 0 0 sampleExplodingCell).styles.fontClass
      = "" :=
  dev_mode_skips_font_load initFontLoaderState false sampleExplodingCell
    ["red"] 0 0 0 rfl rfl rfl

/-- Claim C7: when all three category fetches succeed, the stored glyph
list is a permutation of the concatenation of the characters extracted
from the three payloads, and its length is the sum of the entry counts
across categories: the shuffle introduces no omissions or duplicates. -/
theorem glyph_list_is_permutation_of_sources
    (fetch : String → Except String (List RawKanjiEntry))
    (cmp : String → String → Bool) (d5 d4 d3 : List RawKanjiEntry)
    (h5 : fetch ("N5") = Except.ok d5) (h4 : fetch ("N4") = Except.ok d4)
    (h3 : fetch ("N3") = Except.ok d3) :
    List.Perm (applyLoadKanji true cmp fetch [])
      (d5.map (fun e => e.kanjiChar) ++ d4.map (fun e => e.kanjiChar)
        ++ d3.map (fun e => e.kanjiChar)) ∧
    (applyLoadKanji true cmp fetch []).length =
      d5.length + d4.length + d3.length := by
  have hload : loadKanjiLists fetch = Except.ok
      [d5.map (fun e => e.kanjiChar), d4.map (fun e => e.kanjiChar),
       d3.map (fun e => e.kanjiChar)] := by
    simp [loadKanjiLists, kanjiSources, fetchAllKanji, fetchKanjiChars,
          h5, h4, h3, Except.map, Except.bind, bind]
  have happ : applyLoadKanji true cmp fetch [] =
      shuffle cmp (d5.map (fun e => e.kanjiChar) ++
        (d4.map (fun e => e.kanjiChar) ++ (d3.map (fun e => e.kanjiChar) ++ []))) := by
    rw [applyLoadKanji, hload]
    simp [List.flatten]
  have hperm : List.Perm (applyLoadKanji true cmp fetch [])
      (d5.map (fun e => e.kanjiChar) ++ d4.map (fun e => e.kanjiChar)
        ++ d3.map (fun e => e.kanjiChar)) := by
    rw [happ]
    have := List.mergeSort_perm (d5.map (fun e => e.kanjiChar) ++
        (d4.map (fun e => e.kanjiChar) ++ (d3.map (fun e => e.kanjiChar) ++ []))) cmp
    simpa [shuffle, List.append_assoc] using this
  refine ⟨hperm, ?_⟩
  rw [hperm.length_eq]
  simp [Nat.add_assoc]

theorem glyph_list_is_permutation_of_sources_witness :
    (List.Perm (applyLoadKanji true sampleCmp sampleFetch [])
      (([{ kanjiChar := "a" }, { kanjiChar := "b" }] :
          List RawKanjiEntry).map (fun e => e.kanjiChar)
        ++ ([{ kanjiChar := "c" }] : List RawKanjiEntry).map
            (fun e => e.kanjiChar)
        ++ ([] : List RawKanjiEntry).map (fun e => e.kanjiChar)) ∧
    (applyLoadKanji true sampleCmp sampleFetch []).length =
      ([{ kanjiChar := "a" }, { kanjiChar := "b" }] :
          List RawKanjiEntry).length
        + ([{ kanjiChar := "c" }] : List RawKanjiEntry).length
        + ([] : List RawKanjiEntry).length) ∧
    (applyLoadKanji true sampleCmp sampleFetch []).length = 3 := by
  have h := glyph_list_is_permutation_of_sources sampleFetch sampleCmp
    [{ kanjiChar := "a" }, { kanjiChar := "b" }] [{ kanjiChar := "c" }] []
    rfl rfl rfl
  exact ⟨h, by rw [h.2]; rfl⟩

/-- Claim C8: when at least one of the three category fetches fails, the
aggregate load rejects before the state setter is reached, so the glyph
list stays empty: no partial result is rendered. -/
theorem any_fetch_failure_leaves_list_empty
    (fetch : String → Except String (List RawKanjiEntry))
    (cmp : String → String → Bool) (isMounted : Bool)
    (hfail : (∃ err, fetch ("N5") = Except.error err) ∨
      (∃ err, fetch ("N4") = Except.error err) ∨
      (∃ err, fetch ("N3") = Except.error err)) :
    applyLoadKanji isMounted cmp fetch [] = [] := by
  obtain ⟨e, hload⟩ : ∃ e, loadKanjiLists fetch = Except.error e := by
    rcases hfail with ⟨e, he⟩ | ⟨e, he⟩ | ⟨e, he⟩
    · exact ⟨e, by simp [loadKanjiLists, kanjiSources, fetchAllKanji,
        fetchKanjiChars, he, Except.map, Except.bind, bind]⟩
    · cases h5 : fetch ("N5") with
      | error e5 => exact ⟨e5, by simp [loadKanjiLists, kanjiSources,
          fetchAllKanji, fetchKanjiChars, h5, Except.map, Except.bind, bind]⟩
      | ok d5 => exact ⟨e, by simp [loadKanjiLists, kanjiSources,
          fetchAllKanji, fetchKanjiChars, h5, he, Except.map, Except.bind, bind]⟩
    · cases h5 : fetch ("N5") with
      | error e5 => exact ⟨e5, by simp [loadKanjiLists, kanjiSources,
          fetchAllKanji, fetchKanjiChars, h5, Except.map, Except.bind, bind]⟩
      | ok d5 =>
        cases h4 : fetch ("N4") with
        | error e4 => exact ⟨e4, by simp [loadKanjiLists, kanjiSources,
            fetchAllKanji, fetchKanjiChars, h5, h4, Except.map, Except.bind,
            bind]⟩
        | ok d4 => exact ⟨e, by simp [loadKanjiLists, kanjiSources,
            fetchAllKanji, fetchKanjiChars, h5, h4, he, Except.map,
            Except.bind, bind]⟩
  rw [applyLoadKanji, hload]

theorem any_fetch_failure_leaves_list_empty_witness :
    applyLoadKanji true sampleCmp sampleFailFetch [] = [] :=
  any_fetch_failure_leaves_list_empty sampleFailFetch sampleCmp true
    (Or.inr (Or.inl ⟨"network", rfl⟩))

/-- Claim C9: a color belongs to the process-wide pool exactly when it is
the main color or a present secondary color of some theme in the
designated theme group (the group at index 2); colors of other groups
contribute nothing. -/
theorem color_pool_from_designated_group (themeSets : List ThemeGroup)
    (group : ThemeGroup) (c : String)
    (hg : themeSets.get? 2 = some group) :
    c ∈ getAllMainColors themeSets ↔
      ∃ t ∈ group.themes, c = t.mainColor ∨ t.secondaryColor = some c := by
  unfold getAllMainColors
  rw [hg]
  simp [mem_foldl_addThemeColors]

theorem color_pool_from_designated_group_witness :
    (("g2-sec") ∈ getAllMainColors sampleThemeSets ↔
      ∃ t ∈ sampleGroupTwo.themes,
        ("g2-sec") = t.mainColor ∨ t.secondaryColor = some ("g2-sec")) :=
  color_pool_from_designated_group sampleThemeSets sampleGroupTwo
    ("g2-sec") rfl

/-- Claim C10: once the import has rejected, the failure is permanent:
the stored promise is never cleared, the cache stays unpopulated, the
module state is frozen under every later event, any later qualifying call
receives the same (rejected) stored promise, and no second import is ever
started. -/
theorem rejected_font_load_cached_permanently (s : FontLoaderState)
    (i : Nat) (evs : List FontEvent) (isProd forceLoad : Bool)
    (hcache : s.fontsCache = none) (hpend : s.pendingId = some i)
    (hrej : s.rejected = true)
    (hok : isProd = true ∨ forceLoad = true) :
    fontRun s evs = s ∧
    loadDecorationFonts isProd forceLoad s = (s, FontCallResult.promiseRef i) ∧
    (fontRun s evs).importCount = s.importCount ∧
    (fontRun s evs).fontsCache = none := by
  have hrun : fontRun s evs = s := by
    induction evs with
    | nil => rfl
    | cons e es ih =>
      rw [fontRun, rejectedFrozen_step s i e hcache hpend hrej]
      exact ih
  have hne : ¬(isProd = false ∧ forceLoad = false) := by
    rcases hok with h | h <;> simp [h]
  exact ⟨hrun, by simp [loadDecorationFonts, hne, hcache, hpend],
    by rw [hrun], by rw [hrun, hcache]⟩

theorem rejected_font_load_cached_permanently_witness :
    fontRun sampleRejectedState
        [FontEvent.call true false, FontEvent.resolve [sampleFont],
         FontEvent.reject, FontEvent.call false true]
      = sampleRejectedState ∧
    loadDecorationFonts true false sampleRejectedState
      = (sampleRejectedState, FontCallResult.promiseRef 0) ∧
    (fontRun sampleRejectedState
        [FontEvent.call true false, FontEvent.resolve [sampleFont],
         FontEvent.reject, FontEvent.call false true]).importCount
      = sampleRejectedState.importCount ∧
    (fontRun sampleRejectedState
        [FontEvent.call true false, FontEvent.resolve [sampleFont],
         FontEvent.reject, FontEvent.call false true]).fontsCache
      = none :=
  rejected_font_load_cached_permanently sampleRejectedState 0
    [FontEvent.call true false, FontEvent.resolve [sampleFont],
     FontEvent.reject, FontEvent.call false true]
    true false rfl rfl rfl (Or.inl rfl)

end KanaDojo.Decorations
